import Mathlib

/-!
Verification of the pytest-sequence-reporter plugin
(`src/pytest_sequence_reporter/plugin.py`).

The plugin observes a pytest run and forwards normalized status messages
to an external HTTP listener.  Its core consists of an outcome
reconciler (combining setup/call/teardown phase reports into one final
verdict) and an event dispatcher that buffers per-test phase reports,
flushes on teardown, and performs a best-effort HTTP delivery.

Shallow embedding conventions:
* `report.when`, `report.outcome`, `report.duration`, `report.wasxfail`
  and `report.user_properties` mirror the attributes the plugin reads
  from a pytest `TestReport` object; `duration` is modelled as a
  rational number, `wasxfail` (read via `getattr(report, 'wasxfail',
  False)` and only ever tested for truthiness) as a `Bool`.
* The module-level dictionary `test_reports` is modelled as a function
  from node ids to an optional per-test phase mapping, mirroring a
  Python dict (unique keys, lookup / assignment / `del`).
* `requests.post` followed by `response.raise_for_status()` is modelled
  by a delivery oracle `Msg → DeliveryResult`; a transport failure or a
  non-2xx status both surface as a raised `requests.RequestException`,
  i.e. as `DeliveryResult.failure cause`.
* Hooks run in the `Except String` monad: a value `.error c` would be a
  Python exception escaping the hook boundary; `tryCatchReq` models the
  `try/except requests.RequestException` block.
-/

/-- The three pytest phases a `TestReport.when` attribute can carry for
`pytest_runtest_logreport`. -/
inductive Phase
  | setup
  | call
  | teardown
deriving DecidableEq, Repr

/-- Embedding of the attributes of a pytest `TestReport` that the plugin
reads: `nodeid`, `when`, `outcome`, `duration`, `wasxfail` (truthiness
only) and `user_properties` (an opaque list of key/value pairs). -/
structure PhaseReport where
  nodeid : String
  when : Phase
  outcome : String
  duration : ℚ
  wasxfail : Bool
  user_properties : List (String × String)
deriving DecidableEq

/-- Python truthiness test
`rep and rep.outcome == 'failed' and not getattr(rep, 'wasxfail', False)`
applied to an optional phase report (plugin.py lines 128-133). -/
def failedNotXfail : Option PhaseReport → Bool
  | none => false
  | some r => (r.outcome == "failed") && !r.wasxfail

/-- The outcome-reconciliation logic of `pytest_runtest_logreport`
(plugin.py lines 126-157), as a function of the three optional phase
reports stored for one node id.  Translated branch by branch from the
`if/elif/else` chain of the source. -/
def reconcileOutcome (setup_report call_report teardown_report : Option PhaseReport) : String :=
  if failedNotXfail setup_report || failedNotXfail teardown_report then
    "error"
  else
    match call_report with
    | some call_r =>
      if call_r.wasxfail then
        if call_r.outcome == "passed" then "xpassed" else "xfailed"
      else
        if call_r.outcome == "passed" then "passed"
        else if call_r.outcome == "failed" then "failed"
        else if call_r.outcome == "skipped" then "skipped"
        else call_r.outcome
    | none =>
      match setup_report with
      | some s => if s.outcome == "skipped" then "skipped" else "error"
      | none => "error"

/-- The per-test entry of the `test_reports` dictionary: a mapping from
phase name to the stored report, with at most one report per phase. -/
structure PhaseReports where
  setup : Option PhaseReport
  call : Option PhaseReport
  teardown : Option PhaseReport
deriving DecidableEq

/-- The fresh entry `test_reports[nodeid] = {}` (plugin.py line 113). -/
def PhaseReports.empty : PhaseReports := ⟨none, none, none⟩

/-- Dictionary assignment `test_reports[nodeid][report.when] = report`
(plugin.py line 115). -/
def PhaseReports.insertPhase (r : PhaseReports) : Phase → PhaseReport → PhaseReports
  | Phase.setup, p => ⟨some p, r.call, r.teardown⟩
  | Phase.call, p => ⟨r.setup, some p, r.teardown⟩
  | Phase.teardown, p => ⟨r.setup, r.call, some p⟩

/-- The values of the per-test dictionary, i.e. the phase reports
actually present (`reports.values()`). -/
def PhaseReports.values (r : PhaseReports) : List PhaseReport :=
  [r.setup, r.call, r.teardown].filterMap id

/-- `total_duration = sum(rep.duration for rep in reports.values() if rep)`
(plugin.py line 159).  Every stored value is a genuine report object, so
the `if rep` guard filters nothing. -/
def totalDuration (r : PhaseReports) : ℚ :=
  (r.values.map PhaseReport.duration).sum

/-- Duration contributed by one optional phase: the report's duration
when the phase is present, zero when it is absent.  This is the
spec-side reading of the duration rule, compared against
`totalDuration` in the corresponding theorem. -/
def optDuration : Option PhaseReport → ℚ
  | none => 0
  | some r => r.duration

/-- User-property collection of plugin.py lines 162-166: properties of
the call, setup and teardown phases, in that priority order; a missing
phase (or one with an empty property list) contributes nothing. -/
def collectUserProperties (r : PhaseReports) : List (String × String) :=
  [r.call, r.setup, r.teardown].foldl
    (fun acc po =>
      match po with
      | some p => acc ++ p.user_properties
      | none => acc)
    []

/-- The two outbound wire messages the plugin builds: `test_started`
(plugin.py lines 92-95) and `test_finished` (lines 168-174). -/
inductive Msg
  | started (test_id : String)
  | finished (test_id : String) (outcome : String) (duration : ℚ)
      (details : List (String × String))
deriving DecidableEq

/-- Result of one delivery attempt, i.e. of
`requests.post(...)` followed by `response.raise_for_status()`: either
success, or a raised `requests.RequestException` carrying its cause
(transport failure or non-2xx status alike). -/
inductive DeliveryResult
  | success
  | failure (cause : String)
deriving DecidableEq

/-- A delivery oracle: what the network does with each posted message.
It abstracts the destination `sequencer_api_url + API_ENDPOINT`. -/
def DeliveryOracle : Type := Msg → DeliveryResult

/-- The raised-exception view of one delivery attempt: `.error cause`
models the `requests.RequestException` thrown inside the `try` block. -/
def post (oracle : DeliveryOracle) (m : Msg) : Except String Unit :=
  match oracle m with
  | DeliveryResult.success => Except.ok ()
  | DeliveryResult.failure c => Except.error c

/-- `try: body except requests.RequestException as e: handler e`.  Every
exception the modelled `try` body can raise is a request exception, so
the handler sees exactly the `.error` case. -/
def tryCatchReq {α : Type} (body : Except String α) (handler : String → Except String α) :
    Except String α :=
  match body with
  | Except.ok a => Except.ok a
  | Except.error e => handler e

/-- The `test_reports` module dictionary: node id to per-test phase
mapping, absent entries being `none`. -/
def Buffer : Type := String → Option PhaseReports

/-- The empty `test_reports` dictionary. -/
def Buffer.empty : Buffer := fun _ => none

/-- Dictionary assignment `test_reports[nodeid] = entry`. -/
def Buffer.insert (b : Buffer) (nodeid : String) (entry : PhaseReports) : Buffer :=
  fun k => if k = nodeid then some entry else b k

/-- Dictionary deletion `del test_reports[nodeid]`. -/
def Buffer.erase (b : Buffer) (nodeid : String) : Buffer :=
  fun k => if k = nodeid then none else b k

/-- Output of one hook invocation: the `test_reports` dictionary after
the call, the delivery attempts made (in order), and the lines printed
to the console. -/
structure HookOut where
  buffer : Buffer
  attempts : List Msg
  logs : List String

/-- `pytest_runtest_logstart` (plugin.py lines 85-104), parameterized by
the delivery oracle and the `sequencer_reporting_enabled` flag.  The
hook touches no buffer state; its output is the list of delivery
attempts and printed lines.  An `.error` result would be an exception
escaping the hook. -/
def pytest_runtest_logstart (oracle : DeliveryOracle)
    (sequencer_reporting_enabled : Bool) (nodeid : String) :
    Except String (List Msg × List String) :=
  if nodeid = "" || !sequencer_reporting_enabled then
    Except.ok ([], [])
  else
    let message := Msg.started nodeid
    tryCatchReq
      (do
        post oracle message
        Except.ok ([message], ["Sent test_started message for " ++ nodeid]))
      (fun e =>
        Except.ok ([message],
          ["Failed to send test_started message for " ++ nodeid,
           "Exception: " ++ e]))

/-- `pytest_runtest_logreport` (plugin.py lines 106-186), parameterized
by the delivery oracle, the `sequencer_reporting_enabled` flag and the
current `test_reports` dictionary.  On a teardown report it reconciles,
builds the `test_finished` message, attempts delivery inside
`try/except`, and in the `finally` clause deletes the node id's entry.
An `.error` result would be an exception escaping the hook. -/
def pytest_runtest_logreport (oracle : DeliveryOracle)
    (sequencer_reporting_enabled : Bool) (buf : Buffer) (report : PhaseReport) :
    Except String HookOut :=
  if !sequencer_reporting_enabled then
    Except.ok ⟨buf, [], []⟩
  else
    let nodeid := report.nodeid
    let entry := (buf nodeid).getD PhaseReports.empty
    let entry' := entry.insertPhase report.when report
    let buf' := buf.insert nodeid entry'
    if report.when = Phase.teardown then
      let reports := entry'
      let outcome := reconcileOutcome reports.setup reports.call reports.teardown
      let total_duration := totalDuration reports
      let user_properties := collectUserProperties reports
      let message := Msg.finished nodeid outcome total_duration user_properties
      do
        let logs ← tryCatchReq
          (do
            post oracle message
            Except.ok ["Sent test_finished message for " ++ nodeid ++
              " with outcome: " ++ outcome])
          (fun e =>
            Except.ok ["Failed to send test_finished message for " ++ nodeid,
              "Exception: " ++ e])
        Except.ok ⟨buf'.erase nodeid, [message], logs⟩
    else
      Except.ok ⟨buf', [], []⟩

/-- One runner lifecycle event observed by the dispatcher. -/
inductive HookEvent
  | logstart (nodeid : String)
  | logreport (report : PhaseReport)

/-- A sequence of hook invocations, threading the `test_reports`
dictionary through and accumulating delivery attempts and console
lines. -/
def runHooks (oracle : DeliveryOracle) (sequencer_reporting_enabled : Bool) :
    Buffer → List HookEvent → Except String HookOut
  | buf, [] => Except.ok ⟨buf, [], []⟩
  | buf, HookEvent.logstart nodeid :: rest => do
      let (ms, ls) ← pytest_runtest_logstart oracle sequencer_reporting_enabled nodeid
      let out ← runHooks oracle sequencer_reporting_enabled buf rest
      Except.ok ⟨out.buffer, ms ++ out.attempts, ls ++ out.logs⟩
  | buf, HookEvent.logreport r :: rest => do
      let out1 ← pytest_runtest_logreport oracle sequencer_reporting_enabled buf r
      let out ← runHooks oracle sequencer_reporting_enabled out1.buffer rest
      Except.ok ⟨out.buffer, out1.attempts ++ out.attempts, out1.logs ++ out.logs⟩

/-- The default value of a registered option, as stored by
`add_custom_option` from `kwargs.get("default")`: a boolean for
`store_true` flags, a string for `--sequencer-api`, or absent. -/
inductive OptionDefault
  | boolVal (b : Bool)
  | strVal (s : String)
  | noneVal
deriving DecidableEq

/-- One record appended to `custom_options` by `add_custom_option`
(plugin.py lines 14-24): the option name (`args[0]`), its default and
its help text (`kwargs.get(...)`, hence optional). -/
structure OptionInfo where
  name : String
  default : OptionDefault
  help : Option String
deriving DecidableEq

/-- `add_custom_option` (plugin.py lines 14-24): registers the option
with the parser and appends its details to `custom_options`.  Only the
accumulated details matter here. -/
def add_custom_option (opts : List OptionInfo) (name : String)
    (default : OptionDefault) (help : String) : List OptionInfo :=
  opts ++ [⟨name, default, some help⟩]

/-- The `custom_options` list as built by `pytest_addoption`
(plugin.py lines 26-51): the three registered options, in registration
order. -/
def custom_options : List OptionInfo :=
  add_custom_option
    (add_custom_option
      (add_custom_option []
        "--enable-sequencer-reporting" (OptionDefault.boolVal false)
        "Enable notifications to the test sequencer GUI.")
      "--list-options" (OptionDefault.boolVal false)
      "List all pytest addoptions with their default values")
    "--sequencer-api" (OptionDefault.strVal "http://localhost:8765/")
    "API URL for sequencer"

/-- `json.dumps` applied to a default value: Python `False`/`True`
render as `false`/`true`, strings are quoted, `None` renders as
`null`.  No registered value needs character escaping. -/
def jsonOfDefault : OptionDefault → String
  | OptionDefault.boolVal true => "true"
  | OptionDefault.boolVal false => "false"
  | OptionDefault.strVal s => "\"" ++ s ++ "\""
  | OptionDefault.noneVal => "null"

/-- `json.dumps` applied to one option dictionary
`{"name": ..., "default": ..., "help": ...}` (keys in insertion
order, default separators). -/
def jsonOfOption (o : OptionInfo) : String :=
  "\x7b\"name\": \"" ++ o.name ++ "\", \"default\": " ++ jsonOfDefault o.default ++
    ", \"help\": " ++
    (match o.help with
     | some h => "\"" ++ h ++ "\""
     | none => "null") ++ "\x7d"

/-- `json.dumps(filtered_options)`: a JSON array of option objects with
the default `", "` separator. -/
def jsonDumpsOptions (l : List OptionInfo) : String :=
  "[" ++ String.intercalate ", " (l.map jsonOfOption) ++ "]"

/-- What `pytest_sessionstart` does with the session: either terminate
it right away via `pytest.exit` — before any test is collected or
executed — after printing `printed` to standard output, or let the run
proceed normally. -/
inductive SessionAction
  | exitSession (printed : String) (reason : String) (returncode : Nat)
  | proceed
deriving DecidableEq

/-- `pytest_sessionstart` (plugin.py lines 53-68) as a function of the
`list_options` flag: with the flag set it filters `--list-options` out
of `custom_options`, prints the JSON serialization and exits with
return code 0; otherwise the session proceeds. -/
def pytest_sessionstart (list_options : Bool) : SessionAction :=
  if list_options then
    let filtered_options := custom_options.filter (fun o => o.name ≠ "--list-options")
    let json_output := jsonDumpsOptions filtered_options
    SessionAction.exitSession json_output "Listed all custom options in JSON format." 0
  else
    SessionAction.proceed

/-- A concrete phase report used to instantiate witness theorems. -/
def sampleReport (ph : Phase) (oc : String) (d : ℚ) (xf : Bool) : PhaseReport :=
  ⟨"test_mod.py::test_ok", ph, oc, d, xf, []⟩

/-- C1: if the setup report failed and was not marked expected-failure,
or the teardown report failed and was not marked expected-failure, the
reconciled outcome is `error`, whatever the call report holds. -/
theorem C1_infra_failure_dominates (s c t : Option PhaseReport)
    (h : (∃ sr, s = some sr ∧ sr.outcome = "failed" ∧ sr.wasxfail = false) ∨
         (∃ tr, t = some tr ∧ tr.outcome = "failed" ∧ tr.wasxfail = false)) :
    reconcileOutcome s c t = "error" := by
  rcases h with ⟨sr, rfl, ho, hx⟩ | ⟨tr, rfl, ho, hx⟩ <;>
    simp [reconcileOutcome, failedNotXfail, ho, hx]

/-- Witness for C1: setup failed, call passed, still `error`. -/
theorem C1_witness :
    reconcileOutcome (some (sampleReport Phase.setup "failed" 0 false))
      (some (sampleReport Phase.call "passed" 0 false)) none = "error" :=
  C1_infra_failure_dominates _ _ _ (Or.inl ⟨_, rfl, rfl, rfl⟩)

/-- C2: with no un-expected setup/teardown failure and a call report
present, an expected-failure call yields `xpassed` when it passed and
`xfailed` otherwise, and a non-expected-failure call's outcome passes
through as the final outcome. -/
theorem C2_call_outcome_mirrored (s t : Option PhaseReport) (cr : PhaseReport)
    (hs : failedNotXfail s = false) (ht : failedNotXfail t = false) :
    (cr.wasxfail = true →
      reconcileOutcome s (some cr) t =
        (if cr.outcome = "passed" then "xpassed" else "xfailed")) ∧
    (cr.wasxfail = false → reconcileOutcome s (some cr) t = cr.outcome) := by
  constructor
  · intro hx
    by_cases h : cr.outcome = "passed" <;> simp [reconcileOutcome, hs, ht, hx, h]
  · intro hx
    by_cases h1 : cr.outcome = "passed"
    · simp [reconcileOutcome, hs, ht, hx, h1]
    · by_cases h2 : cr.outcome = "failed"
      · simp [reconcileOutcome, hs, ht, hx, h1, h2]
      · by_cases h3 : cr.outcome = "skipped" <;>
          simp [reconcileOutcome, hs, ht, hx, h1, h2, h3]

/-- Witness for C2: a call marked expected-failure that passed gives
`xpassed`. -/
theorem C2_witness :
    reconcileOutcome none (some (sampleReport Phase.call "passed" 0 true)) none =
      (if (sampleReport Phase.call "passed" 0 true).outcome = "passed" then "xpassed"
       else "xfailed") :=
  (C2_call_outcome_mirrored none none _ rfl rfl).1 rfl

/-- C3: with no call report and no un-expected setup/teardown failure,
the outcome is `skipped` exactly when the setup report is present with
outcome `skipped`, and `error` in every other case, the setup report
being absent included. -/
theorem C3_no_call_phase (s t : Option PhaseReport)
    (hs : failedNotXfail s = false) (ht : failedNotXfail t = false) :
    ((∃ sr, s = some sr ∧ sr.outcome = "skipped") →
      reconcileOutcome s none t = "skipped") ∧
    ((∀ sr, s = some sr → sr.outcome ≠ "skipped") →
      reconcileOutcome s none t = "error") := by
  constructor
  · rintro ⟨sr, rfl, ho⟩
    simp [reconcileOutcome, hs, ht, ho]
  · intro h
    match s with
    | none => simp [reconcileOutcome, ht]
    | some sr =>
      have := h sr rfl
      simp [reconcileOutcome, hs, ht, this]

/-- Witness for C3: no call report, setup passed, outcome is `error`. -/
theorem C3_witness :
    reconcileOutcome (some (sampleReport Phase.setup "passed" 0 false)) none none =
      "error" :=
  (C3_no_call_phase (some (sampleReport Phase.setup "passed" 0 false)) none rfl rfl).2
    (by rintro sr ⟨rfl⟩; decide)

/-- C4: reconciliation is a total function and its result is one of the
six outcome literals or a pass-through of the call report's raw
outcome. -/
theorem C4_reconcile_total (s c t : Option PhaseReport) :
    reconcileOutcome s c t ∈
      (["passed", "failed", "skipped", "error", "xfailed", "xpassed"] : List String) ∨
    ∃ cr, c = some cr ∧ reconcileOutcome s c t = cr.outcome := by
  by_cases h0 : failedNotXfail s || failedNotXfail t
  · left; simp [reconcileOutcome, h0]
  · match c with
    | none =>
      left
      match s with
      | none => simp [reconcileOutcome, h0]
      | some sr =>
        by_cases hs : sr.outcome = "skipped" <;> simp [reconcileOutcome, h0, hs]
    | some cr =>
      by_cases hx : cr.wasxfail
      · left
        by_cases h1 : cr.outcome = "passed" <;> simp [reconcileOutcome, h0, hx, h1]
      · by_cases h1 : cr.outcome = "passed"
        · left; simp [reconcileOutcome, h0, hx, h1]
        · by_cases h2 : cr.outcome = "failed"
          · left; simp [reconcileOutcome, h0, hx, h1, h2]
          · by_cases h3 : cr.outcome = "skipped"
            · left; simp [reconcileOutcome, h0, hx, h1, h2, h3]
            · right
              exact ⟨cr, rfl, by simp [reconcileOutcome, h0, hx, h1, h2, h3]⟩

/-- Binding a successful `Except` value is function application. -/
theorem exceptOkBind {ε α β : Type} (a : α) (f : α → Except ε β) :
    (Except.ok a >>= f : Except ε β) = f a := rfl

/-- Binding an exceptional `Except` value propagates the exception. -/
theorem exceptErrorBind {ε α β : Type} (e : ε) (f : α → Except ε β) :
    (Except.error e >>= f : Except ε β) = Except.error e := rfl

/-- The `try/except` around one delivery attempt evaluates to the
success continuation or the handler value according to the oracle. -/
theorem tryCatch_post {α : Type} (oracle : DeliveryOracle) (m : Msg) (a : α)
    (hnd : String → α) :
    tryCatchReq (do post oracle m; Except.ok a) (fun e => Except.ok (hnd e)) =
      Except.ok (match oracle m with
        | DeliveryResult.success => a
        | DeliveryResult.failure e => hnd e) := by
  cases ho : oracle m <;>
    simp [tryCatchReq, post, ho, exceptOkBind, exceptErrorBind]

/-- The per-test entry read back right before reconciliation: the
buffered entry for `report.nodeid` (fresh if absent) with the incoming
report stored under its phase. -/
def storedReports (buf : Buffer) (r : PhaseReport) : PhaseReports :=
  ((buf r.nodeid).getD PhaseReports.empty).insertPhase r.when r

/-- The `test_finished` message built on teardown (plugin.py lines
168-174). -/
def finishedMsg (buf : Buffer) (r : PhaseReport) : Msg :=
  Msg.finished r.nodeid
    (reconcileOutcome (storedReports buf r).setup (storedReports buf r).call
      (storedReports buf r).teardown)
    (totalDuration (storedReports buf r))
    (collectUserProperties (storedReports buf r))

/-- Evaluation of `pytest_runtest_logreport` on a teardown report with
reporting enabled: store, reconcile, attempt one delivery, log
accordingly, evict. -/
theorem logreport_teardown_eq (oracle : DeliveryOracle) (buf : Buffer)
    (r : PhaseReport) (h : r.when = Phase.teardown) :
    pytest_runtest_logreport oracle true buf r =
      Except.ok ⟨(buf.insert r.nodeid (storedReports buf r)).erase r.nodeid,
        [finishedMsg buf r],
        match oracle (finishedMsg buf r) with
        | DeliveryResult.success =>
            ["Sent test_finished message for " ++ r.nodeid ++ " with outcome: " ++
              reconcileOutcome (storedReports buf r).setup (storedReports buf r).call
                (storedReports buf r).teardown]
        | DeliveryResult.failure e =>
            ["Failed to send test_finished message for " ++ r.nodeid,
             "Exception: " ++ e]⟩ := by
  simp only [pytest_runtest_logreport, storedReports, finishedMsg, h, Bool.not_true,
    Bool.false_eq_true, if_false, if_pos]
  rw [tryCatch_post, exceptOkBind]

/-- Evaluation of `pytest_runtest_logreport` on a non-teardown report
with reporting enabled: the report is buffered and nothing is sent. -/
theorem logreport_not_teardown_eq (oracle : DeliveryOracle) (buf : Buffer)
    (r : PhaseReport) (h : ¬ r.when = Phase.teardown) :
    pytest_runtest_logreport oracle true buf r =
      Except.ok ⟨buf.insert r.nodeid (storedReports buf r), [], []⟩ := by
  simp [pytest_runtest_logreport, storedReports, h]

/-- Evaluation of `pytest_runtest_logstart` with reporting enabled and a
non-empty node id: one delivery attempt, logged according to the
oracle. -/
theorem logstart_enabled_eq (oracle : DeliveryOracle) (nodeid : String)
    (h : ¬ nodeid = "") :
    pytest_runtest_logstart oracle true nodeid =
      Except.ok ([Msg.started nodeid],
        match oracle (Msg.started nodeid) with
        | DeliveryResult.success => ["Sent test_started message for " ++ nodeid]
        | DeliveryResult.failure e =>
            ["Failed to send test_started message for " ++ nodeid,
             "Exception: " ++ e]) := by
  rw [pytest_runtest_logstart, tryCatch_post]
  simp only [h, Bool.not_true, decide_eq_true_eq, decide_not, if_false]
  cases oracle (Msg.started nodeid) <;> simp

/-- With reporting disabled, `pytest_runtest_logstart` returns at once. -/
theorem logstart_disabled_eq (oracle : DeliveryOracle) (nodeid : String) :
    pytest_runtest_logstart oracle false nodeid = Except.ok ([], []) := by
  simp [pytest_runtest_logstart]

/-- With reporting disabled, `pytest_runtest_logreport` returns at once,
leaving the buffer untouched. -/
theorem logreport_disabled_eq (oracle : DeliveryOracle) (buf : Buffer)
    (r : PhaseReport) :
    pytest_runtest_logreport oracle false buf r = Except.ok ⟨buf, [], []⟩ := by
  simp [pytest_runtest_logreport]

/-- The summed duration over the stored phase reports equals the
per-phase contributions, an absent phase contributing zero. -/
theorem totalDuration_eq_optSum (rp : PhaseReports) :
    totalDuration rp =
      optDuration rp.setup + optDuration rp.call + optDuration rp.teardown := by
  obtain ⟨s, c, t⟩ := rp
  cases s <;> cases c <;> cases t <;>
    simp [totalDuration, PhaseReports.values, optDuration, add_assoc]

/-- C5: processing a teardown report for a node id evicts that node
id's buffer entry whatever the delivery result, and leaves every other
node id's entry exactly as it was. -/
theorem C5_teardown_evicts (oracle : DeliveryOracle) (buf : Buffer)
    (r : PhaseReport) (h : r.when = Phase.teardown) :
    ∃ out, pytest_runtest_logreport oracle true buf r = Except.ok out ∧
      out.buffer r.nodeid = none ∧
      ∀ k, k ≠ r.nodeid → out.buffer k = buf k := by
  refine ⟨_, logreport_teardown_eq oracle buf r h, ?_, ?_⟩
  · simp [Buffer.erase]
  · intro k hk
    simp [Buffer.erase, Buffer.insert, hk]

/-- Witness for C5: with an unreachable destination (every delivery
fails), the teardown report's entry is still evicted. -/
theorem C5_witness :
    ∃ out,
      pytest_runtest_logreport (fun _ => DeliveryResult.failure "connection refused")
        true Buffer.empty (sampleReport Phase.teardown "passed" 0 false) =
        Except.ok out ∧
      out.buffer (sampleReport Phase.teardown "passed" 0 false).nodeid = none ∧
      ∀ k, k ≠ (sampleReport Phase.teardown "passed" 0 false).nodeid →
        out.buffer k = Buffer.empty k :=
  C5_teardown_evicts (fun _ => DeliveryResult.failure "connection refused")
    Buffer.empty (sampleReport Phase.teardown "passed" 0 false) rfl

/-- C6: both hooks always return normally, for every oracle behaviour,
and whenever a delivery attempt fails its underlying cause is printed. -/
theorem C6_failures_contained (oracle : DeliveryOracle) (enabled : Bool)
    (nodeid : String) (buf : Buffer) (r : PhaseReport) :
    (∃ res, pytest_runtest_logstart oracle enabled nodeid = Except.ok res ∧
      ∀ m c, m ∈ res.1 → oracle m = DeliveryResult.failure c →
        ("Exception: " ++ c) ∈ res.2) ∧
    (∃ out, pytest_runtest_logreport oracle enabled buf r = Except.ok out ∧
      ∀ m c, m ∈ out.attempts → oracle m = DeliveryResult.failure c →
        ("Exception: " ++ c) ∈ out.logs) := by
  constructor
  · cases enabled with
    | false =>
      exact ⟨([], []), logstart_disabled_eq oracle nodeid, by simp⟩
    | true =>
      by_cases hn : nodeid = ""
      · refine ⟨([], []), ?_, by simp⟩
        simp [pytest_runtest_logstart, hn]
      · rw [logstart_enabled_eq oracle nodeid hn]
        cases ho : oracle (Msg.started nodeid) with
        | success =>
          refine ⟨_, rfl, ?_⟩
          intro m c hm hc
          simp only [List.mem_singleton] at hm
          subst hm
          rw [ho] at hc
          cases hc
        | failure c0 =>
          refine ⟨_, rfl, ?_⟩
          intro m c hm hc
          simp only [List.mem_singleton] at hm
          subst hm
          rw [ho] at hc
          cases hc
          simp
  · cases enabled with
    | false =>
      exact ⟨⟨buf, [], []⟩, logreport_disabled_eq oracle buf r, by simp⟩
    | true =>
      by_cases ht : r.when = Phase.teardown
      · rw [logreport_teardown_eq oracle buf r ht]
        cases ho : oracle (finishedMsg buf r) with
        | success =>
          refine ⟨_, rfl, ?_⟩
          intro m c hm hc
          simp only [List.mem_singleton] at hm
          subst hm
          rw [ho] at hc
          cases hc
        | failure c0 =>
          refine ⟨_, rfl, ?_⟩
          intro m c hm hc
          simp only [List.mem_singleton] at hm
          subst hm
          rw [ho] at hc
          cases hc
          simp
      · rw [logreport_not_teardown_eq oracle buf r ht]
        exact ⟨_, rfl, by simp⟩

/-- Witness for C6, at a concrete failing oracle, node id, buffer and
teardown report. -/
theorem C6_witness :
    (∃ res,
      pytest_runtest_logstart (fun _ => DeliveryResult.failure "connection refused")
        true "test_mod.py::test_ok" = Except.ok res ∧
      ∀ m c, m ∈ res.1 →
        (fun (_ : Msg) => DeliveryResult.failure "connection refused") m =
          DeliveryResult.failure c →
        ("Exception: " ++ c) ∈ res.2) ∧
    (∃ out,
      pytest_runtest_logreport (fun _ => DeliveryResult.failure "connection refused")
        true Buffer.empty (sampleReport Phase.teardown "passed" 0 false) =
        Except.ok out ∧
      ∀ m c, m ∈ out.attempts →
        (fun (_ : Msg) => DeliveryResult.failure "connection refused") m =
          DeliveryResult.failure c →
        ("Exception: " ++ c) ∈ out.logs) :=
  C6_failures_contained (fun _ => DeliveryResult.failure "connection refused")
    true "test_mod.py::test_ok" Buffer.empty
    (sampleReport Phase.teardown "passed" 0 false)

/-- C7: with reporting disabled, any sequence of hook invocations makes
no delivery attempt and leaves the buffer untouched. -/
theorem C7_disabled_noop (oracle : DeliveryOracle) (buf : Buffer)
    (evs : List HookEvent) :
    runHooks oracle false buf evs = Except.ok ⟨buf, [], []⟩ := by
  induction evs generalizing buf with
  | nil => rfl
  | cons e rest ih =>
    cases e with
    | logstart nodeid =>
      simp [runHooks, logstart_disabled_eq, exceptOkBind, ih buf]
    | logreport r =>
      simp [runHooks, logreport_disabled_eq, exceptOkBind, ih buf]

/-- C8: the duration carried by the `test_finished` message a teardown
report triggers is the sum of the durations of exactly the phase
reports stored for that node id, an absent phase contributing zero. -/
theorem C8_duration_sum (oracle : DeliveryOracle) (buf : Buffer)
    (r : PhaseReport) (h : r.when = Phase.teardown) :
    ∃ out, pytest_runtest_logreport oracle true buf r = Except.ok out ∧
      ∀ id outc d props, Msg.finished id outc d props ∈ out.attempts →
        d = optDuration (storedReports buf r).setup +
            optDuration (storedReports buf r).call +
            optDuration (storedReports buf r).teardown := by
  refine ⟨_, logreport_teardown_eq oracle buf r h, ?_⟩
  intro id outc d props hm
  simp only [List.mem_singleton, finishedMsg, Msg.finished.injEq] at hm
  rw [hm.2.2.1, totalDuration_eq_optSum]

/-- A concrete buffer holding setup and call reports for one test. -/
def sampleBuffer : Buffer :=
  Buffer.empty.insert "test_mod.py::test_ok"
    ⟨some (sampleReport Phase.setup "passed" (1/10) false),
     some (sampleReport Phase.call "passed" (1/5) false), none⟩

/-- Witness for C8, at a concrete buffer with setup and call reports
and an arriving teardown report. -/
theorem C8_witness :
    ∃ out,
      pytest_runtest_logreport (fun _ => DeliveryResult.success) true sampleBuffer
        (sampleReport Phase.teardown "passed" (1/20) false) = Except.ok out ∧
      ∀ id outc d props, Msg.finished id outc d props ∈ out.attempts →
        d = optDuration (storedReports sampleBuffer
              (sampleReport Phase.teardown "passed" (1/20) false)).setup +
            optDuration (storedReports sampleBuffer
              (sampleReport Phase.teardown "passed" (1/20) false)).call +
            optDuration (storedReports sampleBuffer
              (sampleReport Phase.teardown "passed" (1/20) false)).teardown :=
  C8_duration_sum (fun _ => DeliveryResult.success) sampleBuffer
    (sampleReport Phase.teardown "passed" (1/20) false) rfl

/-- C10: even with reporting enabled, `pytest_runtest_logstart` sends
nothing for an empty node id, and any invocation that does attempt a
delivery had a non-empty node id. -/
theorem C10_empty_nodeid_no_send (oracle : DeliveryOracle) :
    pytest_runtest_logstart oracle true "" = Except.ok ([], []) ∧
    ∀ enabled nodeid res,
      pytest_runtest_logstart oracle enabled nodeid = Except.ok res →
      res.1 ≠ [] → nodeid ≠ "" := by
  constructor
  · simp [pytest_runtest_logstart]
  · intro enabled nodeid res heq hne hid
    subst hid
    rw [show pytest_runtest_logstart oracle enabled "" = Except.ok ([], []) from by
      simp [pytest_runtest_logstart]] at heq
    cases heq
    exact hne rfl

/-- Witness for C10: an invocation that attempted a delivery had a
non-empty node id. -/
theorem C10_witness : ("test_mod.py::test_ok" : String) ≠ "" :=
  (C10_empty_nodeid_no_send (fun _ => DeliveryResult.success)).2 true
    "test_mod.py::test_ok"
    ([Msg.started "test_mod.py::test_ok"],
     ["Sent test_started message for test_mod.py::test_ok"])
    rfl (by decide)

/-- C9: with the list-options flag set, session start prints the JSON
array of every registered option except `--list-options` itself and
terminates the session right away with return code 0, before any test
is collected or executed. -/
theorem C9_list_options_short_circuit :
    pytest_sessionstart true =
      SessionAction.exitSession
        "[\x7b\"name\": \"--enable-sequencer-reporting\", \"default\": false, \"help\": \"Enable notifications to the test sequencer GUI.\"\x7d, \x7b\"name\": \"--sequencer-api\", \"default\": \"http://localhost:8765/\", \"help\": \"API URL for sequencer\"\x7d]"
        "Listed all custom options in JSON format." 0 ∧
    (custom_options.filter (fun o => o.name ≠ "--list-options")).map OptionInfo.name =
      ["--enable-sequencer-reporting", "--sequencer-api"] ∧
    "--list-options" ∈ custom_options.map OptionInfo.name := by
  refine ⟨?_, ?_, ?_⟩
  · rfl
  · rfl
  · simp [custom_options, add_custom_option]
